import Mathlib

/-!
# Admin light/dark theme toggle

A shallow embedding of `broker/static/admin/js/dark_mode.js`.

The script is one immediately-invoked function holding `applyTheme`,
`getStoredTheme`, `storeTheme` and a `DOMContentLoaded` handler which in turn
attaches a click handler to the toggle control and a `change` handler to the
`(prefers-color-scheme: dark)` media query.

The browser objects the script touches are modelled as explicit state:

* the document, an HTML page with its root element (`document.documentElement`)
  and its body element (`document.body`), and the element returned by
  `document.getElementById('theme-toggle')` (possibly absent), the latter with
  the element returned by `btn.querySelector('i')` (possibly absent);
* `localStorage`: a key/value list plus two flags telling whether access to the
  storage raises and whether a write raises;
* `window.matchMedia`: absent, or the current `matches` value of the query.

Functions that can raise return `Except DOMException _`; a `try { } catch` is
the `match` on that result.
-/

namespace DarkMode

/-! ## JavaScript values -/

/-- The JavaScript values that may be passed around by the script. Numbers are
represented by integers and objects by a reference; the script only ever
compares a value with a string literal and tests its truthiness. -/
inductive JSValue where
  | undefined
  | null
  | boolean (b : Bool)
  | number (n : Int)
  | string (s : String)
  | object (ref : Nat)
  deriving DecidableEq

/-- The operator `a === b`. -/
def strictEquals (a b : JSValue) : Bool := decide (a = b)

/-- The abstract operation `ToBoolean` (truthiness). -/
def toBoolean : JSValue → Bool
  | .undefined => false
  | .null => false
  | .boolean b => b
  | .number n => decide (n ≠ 0)
  | .string s => decide (s ≠ "")
  | .object _ => true

/-- The operator `a || b`. -/
def jsOr (a b : JSValue) : JSValue := if toBoolean a then a else b

/-- The call `String(b)` on a boolean. -/
def stringOfBoolean (b : Bool) : String := if b then "true" else "false"

/-- The exceptions raised by the storage capability. -/
inductive DOMException where
  | securityError
  | quotaExceededError
  deriving DecidableEq

/-! ## Key/value lists (attributes, storage items) -/

/-- Value bound to `key`, if any. -/
def getEntry (key : String) : List (String × String) → Option String
  | [] => none
  | (k, v) :: rest => if k = key then some v else getEntry key rest

/-- Bind `key` to `value`: an existing binding is replaced in place, a new one is
appended. -/
def setEntry (key value : String) : List (String × String) → List (String × String)
  | [] => [(key, value)]
  | (k, v) :: rest => if k = key then (key, value) :: rest else (k, v) :: setEntry key value rest

/-! ## The document -/

/-- A `DOMTokenList`, such as `element.classList`. -/
structure DOMTokenList where
  tokens : List String
  deriving DecidableEq

/-- The method `classList.contains(token)`. -/
def DOMTokenList.contains (l : DOMTokenList) (token : String) : Bool :=
  decide (token ∈ l.tokens)

/-- The method `classList.toggle(token, force)` with `force` given: the token is
added when `force` is true and absent, removed when `force` is false and present,
and the list is left alone otherwise. -/
def DOMTokenList.toggle (l : DOMTokenList) (token : String) (force : Bool) : DOMTokenList :=
  if token ∈ l.tokens then
    if force then l else ⟨l.tokens.filter (fun t => decide (t ≠ token))⟩
  else
    if force then ⟨l.tokens ++ [token]⟩ else l

/-- An element: its class list and its other attributes (the `class` attribute is
held in `classList` only). -/
structure Element where
  classList : DOMTokenList
  attributes : List (String × String)
  deriving DecidableEq

/-- The method `element.setAttribute(name, value)`. -/
def Element.setAttribute (e : Element) (name value : String) : Element :=
  { e with attributes := setEntry name value e.attributes }

/-- The method `element.getAttribute(name)`; `none` stands for `null`. -/
def Element.getAttribute (e : Element) (name : String) : Option String :=
  getEntry name e.attributes

/-- The assignment `element.title = value`; the property reflects the `title`
attribute. -/
def Element.setTitle (e : Element) (value : String) : Element :=
  e.setAttribute "title" value

/-- The property `element.title`: the `title` attribute, or the empty string. -/
def Element.title (e : Element) : String :=
  (e.getAttribute "title").getD ""

/-- The toggle control: the element itself and the result of
`btn.querySelector('i')`. -/
structure ToggleControl where
  element : Element
  icon : Option Element
  deriving DecidableEq

/-- The parts of the document the script reads and writes. `themeToggle` is the
result of `document.getElementById('theme-toggle')`. -/
structure Document where
  documentElement : Element
  body : Element
  themeToggle : Option ToggleControl
  deriving DecidableEq

/-! ## `applyTheme` -/

/-- The body of `if (btn) { ... }` in `applyTheme`. -/
def applyToggle (isDark : Bool) (btn : ToggleControl) : ToggleControl :=
  let icon := btn.icon
  let icon :=
    match icon with
    | some i =>
      let i := { i with classList := i.classList.toggle "fa-moon" (!isDark) }
      let i := { i with classList := i.classList.toggle "fa-sun" isDark }
      some i
    | none => none
  let element := btn.element.setAttribute "aria-pressed" (stringOfBoolean isDark)
  let element := element.setTitle (if isDark then "Switch to light mode" else "Switch to dark mode")
  { element := element, icon := icon }

/-- The function `applyTheme(theme)`. -/
def applyTheme (theme : JSValue) (doc : Document) : Document :=
  let root := doc.documentElement
  let body := doc.body
  let btn := doc.themeToggle
  let isDark := strictEquals theme (.string "dark")
  let root := { root with classList := root.classList.toggle "dark-mode" isDark }
  let body := { body with classList := body.classList.toggle "dark-mode" isDark }
  let btn :=
    match btn with
    | some b => some (applyToggle isDark b)
    | none => none
  { documentElement := root, body := body, themeToggle := btn }

/-! ## Storage -/

/-- The `localStorage` capability. `blocked` tells whether reaching the storage
raises (storage disabled or denied); `full` tells whether a write raises. -/
structure Storage where
  items : List (String × String)
  blocked : Bool
  full : Bool
  deriving DecidableEq

/-- The expression `localStorage.getItem(key)`. -/
def Storage.getItem (s : Storage) (key : String) : Except DOMException JSValue :=
  if s.blocked then .error .securityError
  else
    match getEntry key s.items with
    | some v => .ok (.string v)
    | none => .ok .null

/-- The statement `localStorage.setItem(key, value)` with a string value. -/
def Storage.setItem (s : Storage) (key value : String) : Except DOMException Storage :=
  if s.blocked then .error .securityError
  else if s.full then .error .quotaExceededError
  else .ok { s with items := setEntry key value s.items }

/-- The function `getStoredTheme()`. -/
def getStoredTheme (s : Storage) : Except DOMException JSValue :=
  match s.getItem "admin-theme" with
  | .ok v => .ok v
  | .error _ => .ok .null

/-- The function `storeTheme(theme)`; its one call site passes a string. -/
def storeTheme (theme : String) (s : Storage) : Except DOMException Storage :=
  match s.setItem "admin-theme" theme with
  | .ok s' => .ok s'
  | .error _ => .ok s

/-! ## The page and its handlers -/

/-- The state of the page: the document, the storage, `window.matchMedia`
(`none` when the function is undefined, otherwise the current `matches` of the
dark colour-scheme query) and which of the script's two listeners are attached. -/
structure Page where
  document : Document
  localStorage : Storage
  matchMedia : Option Bool
  clickListener : Bool
  changeListener : Bool
  deriving DecidableEq

/-- The page as loaded, before `DOMContentLoaded` fires. -/
def load (doc : Document) (s : Storage) (mq : Option Bool) : Page :=
  { document := doc, localStorage := s, matchMedia := mq,
    clickListener := false, changeListener := false }

/-- The expression `window.matchMedia && window.matchMedia(query).matches`:
`undefined` when `window.matchMedia` is undefined, the boolean `matches` otherwise. -/
def prefersDark (mq : Option Bool) : JSValue :=
  match mq with
  | none => .undefined
  | some b => .boolean b

/-- The expression `stored || (prefersDark ? 'dark' : 'light')`. -/
def initialTheme (stored prefers : JSValue) : JSValue :=
  jsOr stored (if toBoolean prefers then .string "dark" else .string "light")

/-- The `DOMContentLoaded` handler. -/
def onDOMContentLoaded (p : Page) : Except DOMException Page := do
  let stored ← getStoredTheme p.localStorage
  let prefers := prefersDark p.matchMedia
  let initial := initialTheme stored prefers
  let doc := applyTheme initial p.document
  let btn := doc.themeToggle
  let click := if btn.isSome then true else p.clickListener
  let change := if (!toBoolean stored) && p.matchMedia.isSome then true else p.changeListener
  pure { p with document := doc, clickListener := click, changeListener := change }

/-- The expression
`document.documentElement.classList.contains('dark-mode') ? 'light' : 'dark'`. -/
def nextTheme (doc : Document) : String :=
  if doc.documentElement.classList.contains "dark-mode" then "light" else "dark"

/-- The click handler of the toggle control. -/
def onClick (p : Page) : Except DOMException Page := do
  let next := nextTheme p.document
  let doc := applyTheme (.string next) p.document
  let s ← storeTheme next p.localStorage
  pure { p with document := doc, localStorage := s }

/-- The `change` handler of the media query; `e` is `e.matches`. -/
def onChange (e : Bool) (p : Page) : Except DOMException Page :=
  pure { p with document := applyTheme (.string (if e then "dark" else "light")) p.document }

/-- Events delivered to the page after initialisation. -/
inductive Event where
  | click
  | change (e : Bool)
  deriving DecidableEq

/-- Delivery of one event: the handler runs when its listener is attached. A
`change` event also records the new value of the query. -/
def dispatch (p : Page) : Event → Except DOMException Page
  | .click => if p.clickListener then onClick p else pure p
  | .change e =>
    let p := { p with matchMedia := p.matchMedia.map (fun _ => e) }
    if p.changeListener then onChange e p else pure p

/-- Delivery of a sequence of events, one after the other. -/
def run (p : Page) : List Event → Except DOMException Page
  | [] => pure p
  | ev :: rest => do
    let p ← dispatch p ev
    run p rest

/-- Page load followed by the `DOMContentLoaded` handler. -/
def boot (doc : Document) (s : Storage) (mq : Option Bool) : Except DOMException Page :=
  onDOMContentLoaded (load doc s mq)

/-! ## Observations and sample states -/

/-- Whether the icon of the toggle control carries class `c`; false when the
document has no toggle control or the control has no icon. -/
def iconHasClass (doc : Document) (c : String) : Bool :=
  match doc.themeToggle with
  | some btn =>
    match btn.icon with
    | some i => i.classList.contains c
    | none => false
  | none => false

/-- An element without classes or attributes. -/
def bareElement : Element := { classList := ⟨[]⟩, attributes := [] }

/-- A toggle control holding a moon icon. -/
def toggleWithIcon : ToggleControl :=
  { element := bareElement, icon := some { classList := ⟨["fas", "fa-moon"]⟩, attributes := [] } }

/-- A document whose toggle control holds a moon icon. -/
def docWithIcon : Document :=
  { documentElement := bareElement, body := bareElement, themeToggle := some toggleWithIcon }

/-- A document whose toggle control holds no `i` element. -/
def docNoIcon : Document :=
  { documentElement := bareElement, body := bareElement,
    themeToggle := some { element := bareElement, icon := none } }

/-- A document without toggle control. -/
def docNoToggle : Document :=
  { documentElement := bareElement, body := bareElement, themeToggle := none }

/-- A working storage holding nothing. -/
def emptyStorage : Storage := { items := [], blocked := false, full := false }

/-- A working storage holding the empty string under the theme key. -/
def blankStorage : Storage := { items := [("admin-theme", "")], blocked := false, full := false }

/-- A working storage holding the light theme. -/
def lightStorage : Storage := { items := [("admin-theme", "light")], blocked := false, full := false }

/-- A storage every access to which raises. -/
def blockedStorage : Storage := { items := [("admin-theme", "dark")], blocked := true, full := false }

/-! ## Token lists and key/value lists -/

theorem DOMTokenList.contains_toggle (l : DOMTokenList) (t : String) (f : Bool) :
    (l.toggle t f).contains t = f := by
  unfold DOMTokenList.toggle DOMTokenList.contains
  by_cases h : t ∈ l.tokens <;> cases f <;> simp [h]

theorem DOMTokenList.contains_toggle_ne (l : DOMTokenList) (t u : String) (f : Bool)
    (hne : u ≠ t) : (l.toggle t f).contains u = l.contains u := by
  unfold DOMTokenList.toggle DOMTokenList.contains
  by_cases h : t ∈ l.tokens <;> cases f <;> simp [h, hne]

theorem DOMTokenList.toggle_eq_self (l : DOMTokenList) (t : String) (f : Bool)
    (h : l.contains t = f) : l.toggle t f = l := by
  unfold DOMTokenList.contains at h
  unfold DOMTokenList.toggle
  by_cases hm : t ∈ l.tokens <;> cases f <;> simp_all

theorem DOMTokenList.toggle_toggle (l : DOMTokenList) (t : String) (f : Bool) :
    (l.toggle t f).toggle t f = l.toggle t f :=
  DOMTokenList.toggle_eq_self _ t f (DOMTokenList.contains_toggle l t f)

theorem getEntry_setEntry (k v : String) (l : List (String × String)) :
    getEntry k (setEntry k v l) = some v := by
  induction l with
  | nil => simp [setEntry, getEntry]
  | cons a rest ih =>
    obtain ⟨k', v'⟩ := a
    by_cases h : k' = k <;> simp [setEntry, getEntry, h, ih]

theorem getEntry_setEntry_ne (k k' v : String) (l : List (String × String)) (hne : k ≠ k') :
    getEntry k (setEntry k' v l) = getEntry k l := by
  induction l with
  | nil => simp [setEntry, getEntry, Ne.symm hne]
  | cons a rest ih =>
    obtain ⟨k₀, v₀⟩ := a
    by_cases h : k₀ = k'
    · subst h
      simp [setEntry, getEntry, Ne.symm hne]
    · by_cases h2 : k₀ = k
      · subst h2
        simp [setEntry, getEntry, h]
      · simp [setEntry, getEntry, h, h2, ih]

theorem setEntry_eq_self (k v : String) (l : List (String × String))
    (h : getEntry k l = some v) : setEntry k v l = l := by
  induction l with
  | nil => simp [getEntry] at h
  | cons a rest ih =>
    obtain ⟨k₀, v₀⟩ := a
    by_cases h2 : k₀ = k
    · subst h2
      simp [getEntry] at h
      simp [setEntry, h]
    · simp [getEntry, h2] at h
      simp [setEntry, h2, ih h]

theorem setEntry_setEntry (k v : String) (l : List (String × String)) :
    setEntry k v (setEntry k v l) = setEntry k v l :=
  setEntry_eq_self k v _ (getEntry_setEntry k v l)

/-! ## `applyTheme` -/

theorem applyToggle_applyToggle (isDark : Bool) (btn : ToggleControl) :
    applyToggle isDark (applyToggle isDark btn) = applyToggle isDark btn := by
  obtain ⟨el, icon⟩ := btn
  have hk : ("aria-pressed" : String) ≠ "title" := by decide
  have hel : ∀ (a t : String) (l : List (String × String)),
      setEntry "title" t (setEntry "aria-pressed" a (setEntry "title" t (setEntry "aria-pressed" a l)))
        = setEntry "title" t (setEntry "aria-pressed" a l) := by
    intro a t l
    have h1 : setEntry "aria-pressed" a (setEntry "title" t (setEntry "aria-pressed" a l))
        = setEntry "title" t (setEntry "aria-pressed" a l) := by
      apply setEntry_eq_self
      rw [getEntry_setEntry_ne _ _ _ _ hk, getEntry_setEntry]
    rw [h1, setEntry_setEntry]
  have hic : ∀ (l : DOMTokenList),
      (((l.toggle "fa-moon" (!isDark)).toggle "fa-sun" isDark).toggle "fa-moon" (!isDark)).toggle
        "fa-sun" isDark = (l.toggle "fa-moon" (!isDark)).toggle "fa-sun" isDark := by
    intro l
    have h1 : ((l.toggle "fa-moon" (!isDark)).toggle "fa-sun" isDark).toggle "fa-moon" (!isDark)
        = (l.toggle "fa-moon" (!isDark)).toggle "fa-sun" isDark := by
      apply DOMTokenList.toggle_eq_self
      rw [DOMTokenList.contains_toggle_ne _ _ _ _ (by decide), DOMTokenList.contains_toggle]
    rw [h1, DOMTokenList.toggle_toggle]
  cases icon with
  | none => simp [applyToggle, Element.setAttribute, Element.setTitle, hel]
  | some i => simp [applyToggle, Element.setAttribute, Element.setTitle, hel, hic]

/-- C1: after `applyTheme(theme)`, for any value `theme` and any document, the
root element carries the class `dark-mode` exactly when `theme` is the string
`'dark'`, and the body carries it exactly when the root does. -/
theorem applyTheme_dark_mode_class (theme : JSValue) (doc : Document) :
    ((applyTheme theme doc).documentElement.classList.contains "dark-mode" = true
        ↔ theme = .string "dark") ∧
    ((applyTheme theme doc).body.classList.contains "dark-mode" = true
        ↔ (applyTheme theme doc).documentElement.classList.contains "dark-mode" = true) := by
  simp [applyTheme, DOMTokenList.contains_toggle, strictEquals]

/-- C10: `applyTheme` is idempotent: applying the same theme a second time leaves
the whole document (root and body classes, icon classes, attributes and tooltip of
the toggle control) as the first application left it, with or without toggle
control. -/
theorem applyTheme_idempotent (theme : JSValue) (doc : Document) :
    applyTheme theme (applyTheme theme doc) = applyTheme theme doc := by
  obtain ⟨root, body, btn⟩ := doc
  cases btn with
  | none => simp [applyTheme, DOMTokenList.toggle_toggle]
  | some b => simp [applyTheme, DOMTokenList.toggle_toggle, applyToggle_applyToggle]

/-- C2 (as stated, refuted): on a document whose toggle control holds no `i`
element, `applyTheme('dark')` leaves the control without icon, so neither
`fa-moon` nor `fa-sun` is set on an icon of the control. -/
theorem applyTheme_icon_counterexample :
    docNoIcon.themeToggle.isSome = true ∧
    (applyTheme (.string "dark") docNoIcon).themeToggle.bind ToggleControl.icon = none ∧
    iconHasClass (applyTheme (.string "dark") docNoIcon) "fa-moon" = false ∧
    iconHasClass (applyTheme (.string "dark") docNoIcon) "fa-sun" = false := by
  decide

/-- C2 (amended): when the toggle control is present, after `applyTheme(theme)`
its `aria-pressed` attribute is `"true"` or `"false"` according to whether `theme`
is `'dark'` and its tooltip is `Switch to light mode` when dark and
`Switch to dark mode` otherwise; when the control moreover holds an `i` element,
that icon carries `fa-sun` exactly when `theme` is `'dark'` and `fa-moon` exactly
when it is not; a control without `i` element stays without one. -/
theorem applyTheme_toggle_control (theme : JSValue) (doc : Document) (btn : ToggleControl)
    (hbtn : doc.themeToggle = some btn) :
    ∃ btn', (applyTheme theme doc).themeToggle = some btn' ∧
      btn'.element.getAttribute "aria-pressed"
        = some (if theme = .string "dark" then "true" else "false") ∧
      btn'.element.title
        = (if theme = .string "dark" then "Switch to light mode" else "Switch to dark mode") ∧
      (∀ icon, btn.icon = some icon → ∃ icon', btn'.icon = some icon' ∧
        (icon'.classList.contains "fa-sun" = true ↔ theme = .string "dark") ∧
        (icon'.classList.contains "fa-moon" = true ↔ theme ≠ .string "dark")) ∧
      (btn.icon = none → btn'.icon = none) := by
  refine ⟨applyToggle (strictEquals theme (.string "dark")) btn, ?_, ?_, ?_, ?_, ?_⟩
  · simp [applyTheme, hbtn]
  · simp only [applyToggle, Element.setTitle, Element.setAttribute, Element.getAttribute]
    rw [getEntry_setEntry_ne _ _ _ _ (by decide), getEntry_setEntry]
    by_cases h : theme = .string "dark" <;> simp [strictEquals, stringOfBoolean, h]
  · simp only [applyToggle, Element.setTitle, Element.setAttribute, Element.getAttribute,
      Element.title]
    rw [getEntry_setEntry]
    by_cases h : theme = .string "dark" <;> simp [strictEquals, h]
  · intro icon hicon
    simp only [applyToggle, hicon]
    refine ⟨_, rfl, ?_, ?_⟩
    · simp [DOMTokenList.contains_toggle, strictEquals]
    · rw [DOMTokenList.contains_toggle_ne _ _ _ _ (by decide), DOMTokenList.contains_toggle]
      simp [strictEquals]
  · intro hicon
    simp [applyToggle, hicon]

/-- Witness for C2 (amended): a document with toggle control and icon, theme
`'dark'`. -/
theorem applyTheme_toggle_control_witness :
    docWithIcon.themeToggle = some toggleWithIcon ∧
    ∃ btn', (applyTheme (.string "dark") docWithIcon).themeToggle = some btn' ∧
      btn'.element.getAttribute "aria-pressed"
        = some (if JSValue.string "dark" = .string "dark" then "true" else "false") ∧
      btn'.element.title
        = (if JSValue.string "dark" = .string "dark" then "Switch to light mode"
            else "Switch to dark mode") ∧
      (∀ icon, toggleWithIcon.icon = some icon → ∃ icon', btn'.icon = some icon' ∧
        (icon'.classList.contains "fa-sun" = true ↔ JSValue.string "dark" = .string "dark") ∧
        (icon'.classList.contains "fa-moon" = true ↔ JSValue.string "dark" ≠ .string "dark")) ∧
      (toggleWithIcon.icon = none → btn'.icon = none) :=
  ⟨rfl, applyTheme_toggle_control (.string "dark") docWithIcon toggleWithIcon rfl⟩

/-! ## Storage -/

theorem getStoredTheme_eq (s : Storage) :
    getStoredTheme s = .ok (if s.blocked then JSValue.null else
      match getEntry "admin-theme" s.items with
      | some v => .string v
      | none => .null) := by
  unfold getStoredTheme Storage.getItem
  cases hb : s.blocked
  · cases hg : getEntry "admin-theme" s.items <;> simp
  · simp

theorem getStoredTheme_cases (s : Storage) :
    getStoredTheme s = .ok .null ∨ ∃ v, getStoredTheme s = .ok (.string v) := by
  rw [getStoredTheme_eq]
  cases hb : s.blocked
  · cases hg : getEntry "admin-theme" s.items <;> simp
  · simp

theorem storeTheme_eq (theme : String) (s : Storage) :
    storeTheme theme s = .ok (if s.blocked || s.full then s else
      { s with items := setEntry "admin-theme" theme s.items }) := by
  unfold storeTheme Storage.setItem
  cases hb : s.blocked <;> cases hf : s.full <;> simp

/-- C8: when storage access succeeds (neither reaching the storage nor writing to
it raises), `storeTheme(t)` followed by `getStoredTheme()` returns `t`, the value
now held under the key `admin-theme`. -/
theorem storeTheme_getStoredTheme (t : String) (s : Storage)
    (hb : s.blocked = false) (hf : s.full = false) :
    ∃ s', storeTheme t s = .ok s' ∧ getStoredTheme s' = .ok (.string t) ∧
      getEntry "admin-theme" s'.items = some t := by
  refine ⟨{ s with items := setEntry "admin-theme" t s.items }, ?_, ?_, ?_⟩
  · simp [storeTheme_eq, hb, hf]
  · simp [getStoredTheme_eq, hb, getEntry_setEntry]
  · simp [getEntry_setEntry]

/-- Witness for C8: storing `dark` in an empty working storage. -/
theorem storeTheme_getStoredTheme_witness :
    emptyStorage.blocked = false ∧ emptyStorage.full = false ∧
    ∃ s', storeTheme "dark" emptyStorage = .ok s' ∧ getStoredTheme s' = .ok (.string "dark") ∧
      getEntry "admin-theme" s'.items = some "dark" :=
  ⟨rfl, rfl, storeTheme_getStoredTheme "dark" emptyStorage rfl rfl⟩

/-- C9: when every access to the storage raises, `getStoredTheme()` returns
`null` without raising and, for every theme, `storeTheme(theme)` returns normally
and leaves the storage as it was. -/
theorem storage_soft_failure (s : Storage) (hb : s.blocked = true) :
    getStoredTheme s = .ok .null ∧ ∀ theme, storeTheme theme s = .ok s := by
  constructor
  · simp [getStoredTheme_eq, hb]
  · intro theme
    simp [storeTheme_eq, hb]

/-- Witness for C9: a storage every access to which raises. -/
theorem storage_soft_failure_witness :
    blockedStorage.blocked = true ∧
    getStoredTheme blockedStorage = .ok .null ∧
    ∀ theme, storeTheme theme blockedStorage = .ok blockedStorage :=
  ⟨rfl, storage_soft_failure blockedStorage rfl⟩

/-! ## Initialisation and the click handler -/

theorem boot_eq (doc : Document) (s : Storage) (mq : Option Bool) (stored : JSValue)
    (hs : getStoredTheme s = .ok stored) :
    boot doc s mq = .ok
      { document := applyTheme (initialTheme stored (prefersDark mq)) doc,
        localStorage := s,
        matchMedia := mq,
        clickListener := doc.themeToggle.isSome,
        changeListener := (!toBoolean stored) && mq.isSome } := by
  simp only [boot, onDOMContentLoaded, load, hs]
  cases hb : doc.themeToggle <;> cases hc : ((!toBoolean stored) && mq.isSome) <;>
    simp_all [applyTheme, bind, Except.bind, pure, Except.pure]

theorem initialTheme_string (v : String) (prefers : JSValue) (hv : v ≠ "") :
    initialTheme (.string v) prefers = .string v := by
  simp [initialTheme, jsOr, toBoolean, hv]

theorem initialTheme_absent (stored : JSValue) (mq : Option Bool)
    (h : stored = .null ∨ stored = .string "") :
    initialTheme stored (prefersDark mq)
      = .string (if mq = some true then "dark" else "light") := by
  rcases h with h | h <;> subst h <;>
    cases mq with
    | none => simp [initialTheme, jsOr, toBoolean, prefersDark]
    | some b => cases b <;> simp [initialTheme, jsOr, toBoolean, prefersDark]

/-- C3 (as stated, refuted): with the empty string stored under `admin-theme`
and an OS that prefers dark, `getStoredTheme()` returns a value, yet the theme
applied at page load is `'dark'`, which differs from applying the stored value. -/
theorem boot_blank_stored_counterexample :
    getStoredTheme blankStorage = .ok (.string "") ∧
    (∃ p, boot docNoToggle blankStorage (some true) = .ok p ∧
      p.document = applyTheme (.string "dark") docNoToggle) ∧
    applyTheme (.string "dark") docNoToggle ≠ applyTheme (.string "") docNoToggle :=
  ⟨rfl, ⟨_, rfl, rfl⟩, by decide⟩

/-- C3 (amended): page load always completes; the theme it applies is the stored
value whenever `getStoredTheme()` returns a non-empty string (whatever the OS
preference), and otherwise (nothing stored, storage failing, or the empty string
stored) it is `'dark'` if the OS preference is available and reports dark and
`'light'` if not. -/
theorem boot_initial_theme (doc : Document) (s : Storage) (mq : Option Bool) :
    ∃ stored p, getStoredTheme s = .ok stored ∧ boot doc s mq = .ok p ∧
      (∀ v, stored = .string v → v ≠ "" → p.document = applyTheme (.string v) doc) ∧
      (stored = .null ∨ stored = .string "" →
        p.document = applyTheme (.string (if mq = some true then "dark" else "light")) doc) ∧
      (stored = .null ∨ ∃ v, stored = .string v) := by
  rcases getStoredTheme_cases s with hs | ⟨v, hs⟩
  · refine ⟨_, _, hs, boot_eq doc s mq _ hs, ?_, ?_, Or.inl rfl⟩
    · intro v hv
      cases hv
    · intro h
      simp only [initialTheme_absent _ mq h]
  · refine ⟨_, _, hs, boot_eq doc s mq _ hs, ?_, ?_, Or.inr ⟨v, rfl⟩⟩
    · intro w hw hne
      cases hw
      simp only [initialTheme_string _ _ hne]
    · intro h
      simp only [initialTheme_absent _ mq h]

theorem onClick_eq (p : Page) :
    onClick p = .ok
      { p with
        document := applyTheme (.string (nextTheme p.document)) p.document,
        localStorage := if p.localStorage.blocked || p.localStorage.full then p.localStorage
          else { p.localStorage with
                 items := setEntry "admin-theme" (nextTheme p.document) p.localStorage.items } } := by
  simp only [onClick, storeTheme_eq]
  rfl

/-- C4: one invocation of the click handler always completes; it computes
`next` as `'light'` when the root element carries `dark-mode` and `'dark'`
otherwise, leaves the document as `applyTheme(next)` makes it (so the root's
`dark-mode` membership is flipped), and leaves the storage as `storeTheme(next)`
makes it; when storage access succeeds, `getStoredTheme()` then returns `next`,
which is `'dark'` exactly when the root now carries `dark-mode`. -/
theorem onClick_flips_and_stores (p : Page) :
    ∃ p', onClick p = .ok p' ∧
      nextTheme p.document
        = (if p.document.documentElement.classList.contains "dark-mode" then "light" else "dark") ∧
      p'.document = applyTheme (.string (nextTheme p.document)) p.document ∧
      p'.document.documentElement.classList.contains "dark-mode"
        = !p.document.documentElement.classList.contains "dark-mode" ∧
      storeTheme (nextTheme p.document) p.localStorage = .ok p'.localStorage ∧
      (p.localStorage.blocked = false ∧ p.localStorage.full = false →
        getStoredTheme p'.localStorage = .ok (.string (nextTheme p.document)) ∧
        (nextTheme p.document = "dark"
          ↔ p'.document.documentElement.classList.contains "dark-mode" = true)) := by
  refine ⟨_, onClick_eq p, rfl, rfl, ?_, ?_, ?_⟩
  · simp only [applyTheme, DOMTokenList.contains_toggle, strictEquals, nextTheme]
    by_cases h : p.document.documentElement.classList.contains "dark-mode" = true <;> simp [h]
  · simp [storeTheme_eq]
  · rintro ⟨hb, hf⟩
    constructor
    · simp [getStoredTheme_eq, hb, hf, getEntry_setEntry]
    · simp only [applyTheme, DOMTokenList.contains_toggle, strictEquals, nextTheme]
      by_cases h : p.document.documentElement.classList.contains "dark-mode" = true <;> simp [h]

/-! ## Events after initialisation -/

theorem dispatch_change_attached (p : Page) (e : Bool) (h : p.changeListener = true) :
    dispatch p (.change e) = .ok
      { p with
        document := applyTheme (.string (if e then "dark" else "light")) p.document,
        matchMedia := p.matchMedia.map (fun _ => e) } := by
  simp only [dispatch, h, if_true, onChange, pure, Except.pure]

theorem dispatch_change_detached (p : Page) (e : Bool) (h : p.changeListener = false) :
    dispatch p (.change e) = .ok { p with matchMedia := p.matchMedia.map (fun _ => e) } := by
  simp only [dispatch, h, pure, Except.pure]
  rfl

theorem dispatch_click_attached (p : Page) (h : p.clickListener = true) :
    dispatch p .click = onClick p := by
  simp only [dispatch, h, if_true]

theorem dispatch_click_detached (p : Page) (h : p.clickListener = false) :
    dispatch p .click = .ok p := by
  simp only [dispatch, h, pure, Except.pure]
  rfl

theorem dispatch_total (p : Page) (ev : Event) :
    ∃ p', dispatch p ev = .ok p' ∧ p'.changeListener = p.changeListener ∧
      p'.clickListener = p.clickListener ∧ p'.matchMedia.isSome = p.matchMedia.isSome := by
  cases ev with
  | click =>
    rcases Bool.eq_false_or_eq_true p.clickListener with h | h
    · exact ⟨_, (dispatch_click_attached p h).trans (onClick_eq p), rfl, rfl, rfl⟩
    · exact ⟨_, dispatch_click_detached p h, rfl, rfl, rfl⟩
  | change e =>
    rcases Bool.eq_false_or_eq_true p.changeListener with h | h
    · exact ⟨_, dispatch_change_attached p e h, rfl, rfl, by simp⟩
    · exact ⟨_, dispatch_change_detached p e h, rfl, rfl, by simp⟩

theorem run_total (es : List Event) (p : Page) :
    ∃ p', run p es = .ok p' ∧ p'.changeListener = p.changeListener ∧
      p'.clickListener = p.clickListener ∧ p'.matchMedia.isSome = p.matchMedia.isSome := by
  induction es generalizing p with
  | nil => exact ⟨p, rfl, rfl, rfl, rfl⟩
  | cons ev rest ih =>
    obtain ⟨p₁, h₁, hc₁, hk₁, hm₁⟩ := dispatch_total p ev
    obtain ⟨p₂, h₂, hc₂, hk₂, hm₂⟩ := ih p₁
    refine ⟨p₂, ?_, hc₂.trans hc₁, hk₂.trans hk₁, hm₂.trans hm₁⟩
    simp only [run, h₁, bind, Except.bind, h₂]

/-- C5 (evaluation at the failing input): nothing is stored at page load and the
OS prefers light; the user clicks the toggle twice, after which `light` is stored
and displayed; the OS then switches to dark, and the notification turns the page
dark although the stored preference is still `light`. -/
theorem change_after_click_overrides_stored_choice :
    ∃ p₀ p₂ p₃, boot docWithIcon emptyStorage (some false) = .ok p₀ ∧
      run p₀ [.click, .click] = .ok p₂ ∧
      getStoredTheme p₂.localStorage = .ok (.string "light") ∧
      p₂.document.documentElement.classList.contains "dark-mode" = false ∧
      dispatch p₂ (.change true) = .ok p₃ ∧
      getStoredTheme p₃.localStorage = .ok (.string "light") ∧
      p₃.document.documentElement.classList.contains "dark-mode" = true :=
  ⟨_, _, _, rfl, rfl, rfl, by decide, rfl, rfl, by decide⟩

/-- C6 (as stated, refuted): with the empty string stored under `admin-theme`,
`getStoredTheme()` returns a value at page load, yet the `change` listener is
attached and a later OS notification alters the document. -/
theorem blank_stored_subscribes_counterexample :
    getStoredTheme blankStorage = .ok (.string "") ∧
    ∃ p₀ p₁, boot docNoToggle blankStorage (some false) = .ok p₀ ∧
      p₀.changeListener = true ∧
      dispatch p₀ (.change true) = .ok p₁ ∧
      p₁.document ≠ p₀.document :=
  ⟨rfl, _, _, rfl, rfl, rfl, by decide⟩

/-- C6 (amended): when `getStoredTheme()` returns a non-empty string at page
load, the `change` listener is not attached, and after any sequence of later
events an OS preference-change notification leaves the document and the storage
as they were. -/
theorem stored_theme_never_subscribes (doc : Document) (s : Storage) (mq : Option Bool)
    (v : String) (hs : getStoredTheme s = .ok (.string v)) (hv : v ≠ "") (es : List Event) :
    ∃ p₀ p, boot doc s mq = .ok p₀ ∧ p₀.changeListener = false ∧
      run p₀ es = .ok p ∧ p.changeListener = false ∧
      ∀ e, ∃ p', dispatch p (.change e) = .ok p' ∧
        p'.document = p.document ∧ p'.localStorage = p.localStorage := by
  have h₀ := boot_eq doc s mq _ hs
  obtain ⟨p, hrun, hc, _, _⟩ := run_total es
    { document := applyTheme (initialTheme (.string v) (prefersDark mq)) doc,
      localStorage := s, matchMedia := mq, clickListener := doc.themeToggle.isSome,
      changeListener := (!toBoolean (.string v)) && mq.isSome }
  have hoff : ((!toBoolean (.string v)) && mq.isSome) = false := by
    simp [toBoolean, hv]
  refine ⟨_, p, h₀, hoff, hrun, hc.trans hoff, ?_⟩
  intro e
  exact ⟨_, dispatch_change_detached p e (hc.trans hoff), rfl, rfl⟩

/-- Witness for C6 (amended): `light` stored, OS preferring dark, one click
delivered. -/
theorem stored_theme_never_subscribes_witness :
    getStoredTheme lightStorage = .ok (.string "light") ∧ "light" ≠ "" ∧
    ∃ p₀ p, boot docWithIcon lightStorage (some true) = .ok p₀ ∧ p₀.changeListener = false ∧
      run p₀ [.click] = .ok p ∧ p.changeListener = false ∧
      ∀ e, ∃ p', dispatch p (.change e) = .ok p' ∧
        p'.document = p.document ∧ p'.localStorage = p.localStorage :=
  ⟨rfl, by decide,
    stored_theme_never_subscribes docWithIcon lightStorage (some true) "light" rfl (by decide)
      [.click]⟩

/-- C7: when nothing is stored at page load and the OS preference capability is
available, then after any sequence of later events an OS preference-change
notification completes, leaves the document as `applyTheme` of the reported
preference (`'dark'` if the event reports dark, else `'light'`) makes it, and
leaves the storage exactly as it was. -/
theorem change_applies_and_keeps_storage (doc : Document) (s : Storage) (b : Bool)
    (hs : getStoredTheme s = .ok .null) (es : List Event) :
    ∃ p₀ p, boot doc s (some b) = .ok p₀ ∧ run p₀ es = .ok p ∧
      ∀ e, ∃ p', dispatch p (.change e) = .ok p' ∧
        p'.document = applyTheme (.string (if e then "dark" else "light")) p.document ∧
        p'.localStorage = p.localStorage := by
  have h₀ := boot_eq doc s (some b) _ hs
  obtain ⟨p, hrun, hc, _, _⟩ := run_total es
    { document := applyTheme (initialTheme .null (prefersDark (some b))) doc,
      localStorage := s, matchMedia := some b, clickListener := doc.themeToggle.isSome,
      changeListener := (!toBoolean .null) && (some b).isSome }
  have hon : ((!toBoolean .null) && (some b).isSome) = true := by
    simp [toBoolean]
  refine ⟨_, p, h₀, hrun, ?_⟩
  intro e
  exact ⟨_, dispatch_change_attached p e (hc.trans hon), rfl, rfl⟩

/-- Witness for C7: empty storage, OS preferring light, one click delivered before
the notification. -/
theorem change_applies_and_keeps_storage_witness :
    getStoredTheme emptyStorage = .ok .null ∧
    ∃ p₀ p, boot docWithIcon emptyStorage (some false) = .ok p₀ ∧ run p₀ [.click] = .ok p ∧
      ∀ e, ∃ p', dispatch p (.change e) = .ok p' ∧
        p'.document = applyTheme (.string (if e then "dark" else "light")) p.document ∧
        p'.localStorage = p.localStorage :=
  ⟨rfl, change_applies_and_keeps_storage docWithIcon emptyStorage false rfl [.click]⟩

end DarkMode
